import Mathlib

/-!
Verification of the voice I/O pipeline of the roboai repository:
the local ASR input plugin (`src/inputs/plugins/local_asr.py`) and the two
TTS connectors (`src/actions/speak/connector/local_elevenlabs_tts.py`,
`src/actions/speak/connector/piper_tts.py`).

Each Python function relevant to the stated properties is embedded as a pure
Lean function.  External effects (the HTTP response, the piper subprocess, the
audio player) are passed in as explicit outcome values, and observable side
effects (provider call counts, temporary files left on disk, queue contents,
sleep durations) are returned as explicit data.
-/

namespace RoboAI

/-! ### Speech Activity Gate: `LocalASRInput._has_speech`

The source computes `rms = np.sqrt(np.mean(audio_array ** 2))` and returns
`rms > self.silence_threshold`.  Samples are modelled as rationals; the square
root lives in `ℝ`. -/

/-- Mean of the squared samples, `np.mean(audio_array ** 2)`.
For the empty chunk the quotient is `0/0 = 0` in `ℚ`. -/
def mean_square (xs : List ℚ) : ℚ :=
  (xs.map (fun x => x ^ 2)).sum / (xs.length : ℚ)

/-- `_has_speech` (local_asr.py lines 128-143): the root-mean-square of the
samples is strictly greater than the configured silence threshold. -/
def has_speech (xs : List ℚ) (threshold : ℚ) : Prop :=
  Real.sqrt ((mean_square xs : ℚ) : ℝ) > ((threshold : ℚ) : ℝ)

theorem mean_square_nonneg (xs : List ℚ) : 0 ≤ mean_square xs := by
  unfold mean_square
  apply div_nonneg
  · apply List.sum_nonneg
    intro x hx
    simp only [List.mem_map] at hx
    obtain ⟨y, -, rfl⟩ := hx
    positivity
  · positivity

/-- For a nonnegative threshold, the gate fires exactly when the squared
threshold is strictly below the mean square (the comparison the code makes
after the monotone square root). -/
theorem has_speech_iff_sq (xs : List ℚ) (threshold : ℚ) (h : 0 ≤ threshold) :
    has_speech xs threshold ↔ threshold ^ 2 < mean_square xs := by
  unfold has_speech
  rw [gt_iff_lt, Real.lt_sqrt (by exact_mod_cast h)]
  constructor <;> intro hlt <;> exact_mod_cast hlt

/-- Executable form of the gate used when modelling the capture loop. -/
def has_speech_bool (xs : List ℚ) (threshold : ℚ) : Bool :=
  decide (threshold ^ 2 < mean_square xs)

theorem has_speech_bool_iff (xs : List ℚ) (threshold : ℚ) (h : 0 ≤ threshold) :
    has_speech_bool xs threshold = true ↔ has_speech xs threshold := by
  rw [has_speech_iff_sq xs threshold h, has_speech_bool]
  exact decide_eq_true_iff

/-! ### Python string stripping

`str.strip()` removes leading and trailing whitespace.  Modelled structurally
over the character list so that concrete instances evaluate. -/

/-- Python `str.strip()`: drop leading and trailing whitespace characters. -/
def strip (s : String) : String :=
  ⟨((s.data.dropWhile Char.isWhitespace).reverse.dropWhile Char.isWhitespace).reverse⟩

/-! ### Transcription Dispatcher: `_transcribe_with_faster_whisper`

Lines 187-204: `" ".join(segment.text for segment in segments)` followed by
`return text.strip() if text else None`.  Only the segment texts matter, so the
engine result is modelled as the list of segment texts in emission order. -/

/-- `_transcribe_with_faster_whisper` on the segment texts returned by the
engine: join with single spaces; a falsy (empty) joined text gives `None`,
otherwise the stripped text is returned. -/
def transcribe_with_faster_whisper (segments : List String) : Option String :=
  let text := String.intercalate " " segments
  if text = "" then none else some (strip text)

/-! ### Enqueue filter of `_audio_processing_loop`

Lines 100-101: `if text and len(text.strip()) > 0: self.message_buffer.put(text.strip())`.
`text` is the `Optional[str]` returned by `_transcribe_audio`; `None` and `""`
are falsy. -/

/-- The message (if any) that one loop cycle enqueues for a given transcription
result. -/
def loop_enqueue (text : Option String) : Option String :=
  match text with
  | none => none
  | some t => if t ≠ "" ∧ 0 < (strip t).length then some (strip t) else none

/-! ### Message Aggregator: `raw_to_text` / `formatted_latest_buffer`

State of `LocalASRInput` relevant to the buffer: the `messages` list, the
sleep-ticker hint, and the records handed to the IO provider. -/

structure ASRBuffer where
  messages : List String
  skipSleep : Bool
  ioLog : List (String × String)

/-- The `descriptor_for_LLM` of `LocalASRInput`. -/
def descriptor_for_LLM : String := "Voice"

/-- `raw_to_text` (lines 238-257).  `_raw_to_text` is the identity, so the
pending message is the raw input itself.  A `None` input only sets the
skip-sleep hint when the buffer is non-empty; a present input is appended as
the sole entry of an empty buffer or concatenated onto the last entry with a
single space. -/
def raw_to_text (s : ASRBuffer) (raw : Option String) : ASRBuffer :=
  match raw with
  | none =>
      if s.messages.length ≠ 0 then { s with skipSleep := true } else s
  | some pending =>
      if s.messages.length = 0 then { s with messages := [pending] }
      else { s with messages :=
              s.messages.dropLast ++ [s.messages.getLastD "" ++ " " ++ pending] }

/-- The tagged delivery block built by `formatted_latest_buffer`. -/
def format_block (text : String) : String :=
  "\nINPUT: " ++ descriptor_for_LLM ++ "\n// START\n" ++ text ++ "\n// END\n"

/-- `formatted_latest_buffer` (lines 259-285): `None` on an empty buffer;
otherwise the formatted block over `messages[-1]`, the IO-provider record, and
the buffer reset to `[]`. -/
def formatted_latest_buffer (s : ASRBuffer) : Option String × ASRBuffer :=
  match s.messages with
  | [] => (none, s)
  | ms =>
      (some (format_block (ms.getLastD "")),
       { s with messages := [],
                ioLog := s.ioLog ++ [(descriptor_for_LLM, ms.getLastD "")] })

/-- The empty initial aggregator state of `__init__`. -/
def initBuffer : ASRBuffer := { messages := [], skipSleep := false, ioLog := [] }

/-- One aggregator operation: an append (`raw_to_text`) or a destructive read
(`formatted_latest_buffer`). -/
inductive AggOp where
  | append (raw : Option String)
  | readClear

/-- Apply one aggregator operation to the state. -/
def agg_apply (s : ASRBuffer) : AggOp → ASRBuffer
  | .append raw => raw_to_text s raw
  | .readClear => (formatted_latest_buffer s).2

/-- Run a sequence of aggregator operations. -/
def agg_run (s : ASRBuffer) : List AggOp → ASRBuffer
  | [] => s
  | op :: ops => agg_run (agg_apply s op) ops

/-! ### Capture Loop: `_audio_processing_loop`

Lines 88-108: `while True:` with the whole cycle body inside `try`; on success
the cycle ends with `await asyncio.sleep(0.1)`, and `except Exception` logs and
takes `await asyncio.sleep(1)` before the next iteration.  What the environment
does during one cycle is an oracle value. -/

/-- Environment behaviour during one capture-loop cycle. -/
structure CycleOracle where
  /-- Result of `_record_audio_chunk` (`none` models its internal error path,
  which returns `None` after catching the recording exception itself). -/
  record : Option (List ℚ)
  /-- Result of `_transcribe_audio` when it is reached. -/
  transcript : Option String
  /-- An exception escapes the cycle body to the loop's `except` handler. -/
  raised : Bool

/-- One iteration of the loop body: the updated message queue and the sleep
(in seconds) taken at the end of the cycle. -/
def loop_cycle (threshold : ℚ) (o : CycleOracle) (queue : List String) :
    List String × ℚ :=
  if o.raised then (queue, 1)
  else
    match o.record with
    | none => (queue, 1/10)
    | some audio =>
        if audio.length = 0 then (queue, 1/10)
        else if has_speech_bool audio threshold then
          match loop_enqueue o.transcript with
          | some m => (queue ++ [m], 1/10)
          | none => (queue, 1/10)
        else (queue, 1/10)

/-- Run the loop over a prefix of its infinite schedule of cycles, collecting
the queue and the sleep taken after each cycle. -/
def loop_run (threshold : ℚ) (queue : List String) :
    List CycleOracle → List String × List ℚ
  | [] => (queue, [])
  | o :: os =>
      let step := loop_cycle threshold o queue
      let rest := loop_run threshold step.1 os
      (rest.1, step.2 :: rest.2)

/-! ### `LocalElevenLabsTTSConnector` (local_elevenlabs_tts.py)

The connector decides `use_elevenlabs = bool(os.getenv("ELEVENLABS_API_KEY"))`
once in `__init__` and never changes it.  `synthesize` routes on that flag;
`_synthesize_elevenlabs` falls back to `_synthesize_piper` on any non-200
status or exception; `_synthesize_piper` creates a `.txt` and a `.wav`
temporary file before launching the subprocess and unlinks both only on the
two `communicate`-returned branches. -/

/-- Python truthiness of the `os.getenv` result: `None` and `""` are falsy. -/
def pyTruthy : Option String → Bool
  | none => false
  | some s => !(s == "")

/-- `use_elevenlabs` as computed in `__init__` (line 55). -/
def init_use_elevenlabs (apiKey : Option String) : Bool := pyTruthy apiKey

/-- Outcome of the piper subprocess launched by `_synthesize_piper`.  Both
temporary files exist before `create_subprocess_exec` runs, so `raised` covers
any exception from subprocess creation or `communicate` (e.g.
`FileNotFoundError` when the piper executable is missing). -/
inductive PiperProc where
  | exited (returncode : Nat) (wav : List Nat)
  | raised

/-- `_synthesize_piper` (lines 154-216): the returned audio bytes and the
number of temporary files left on disk when the call returns.  Exit code 0
reads the `.wav` and unlinks both files; a non-zero exit unlinks both files and
returns `None`; the `except` handler returns `None` without unlinking either
file. -/
def synthesize_piper : PiperProc → Option (List Nat) × Nat
  | .exited rc wav => if rc = 0 then (some wav, 0) else (none, 0)
  | .raised => (none, 2)

/-- Outcome of the ElevenLabs HTTP POST. -/
inductive HttpOutcome where
  | response (status : Nat) (body : List Nat)
  | raised

/-- External behaviour during one `synthesize`/`speak` call. -/
structure SpeakEnv where
  http : HttpOutcome
  piperProc : PiperProc

/-- Observable effects of one synthesis call. -/
structure SynthTrace where
  result : Option (List Nat)
  elevenCalls : Nat
  piperCalls : Nat
  tempsLeaked : Nat

/-- `_synthesize_elevenlabs` (lines 101-152): a 200 response returns the body;
any other status, and any exception, falls back to `_synthesize_piper`. -/
def synthesize_elevenlabs (env : SpeakEnv) : SynthTrace :=
  match env.http with
  | .response status body =>
      if status = 200 then
        { result := some body, elevenCalls := 1, piperCalls := 0, tempsLeaked := 0 }
      else
        let piper := synthesize_piper env.piperProc
        { result := piper.1, elevenCalls := 1, piperCalls := 1,
          tempsLeaked := piper.2 }
  | .raised =>
      let piper := synthesize_piper env.piperProc
      { result := piper.1, elevenCalls := 1, piperCalls := 1,
        tempsLeaked := piper.2 }

/-- `synthesize` (lines 82-99): route on the `use_elevenlabs` flag. -/
def synthesize (useEleven : Bool) (env : SpeakEnv) : SynthTrace :=
  if useEleven then synthesize_elevenlabs env
  else
    let piper := synthesize_piper env.piperProc
    { result := piper.1, elevenCalls := 0, piperCalls := 1, tempsLeaked := piper.2 }

/-- Observable effects of one `speak` call. -/
structure SpeakTrace where
  ok : Bool
  synth : SynthTrace
  playCalls : Nat

/-- `speak` (lines 218-244): falsy audio (`None` or `b""`) returns `False`
without playing; otherwise `_play_audio` (which catches its own exceptions and
never raises) is invoked and `speak` returns `True`. -/
def speak (useEleven : Bool) (env : SpeakEnv) : SpeakTrace :=
  let tr := synthesize useEleven env
  match tr.result with
  | none => { ok := false, synth := tr, playCalls := 0 }
  | some bytes =>
      if bytes = [] then { ok := false, synth := tr, playCalls := 0 }
      else { ok := true, synth := tr, playCalls := 1 }

/-- One call made on the connector after construction. -/
inductive TTSCall where
  | synthesizeCall (env : SpeakEnv)
  | speakCall (env : SpeakEnv)

/-- ElevenLabs HTTP attempts made by one call. -/
def eleven_attempts (useEleven : Bool) : TTSCall → Nat
  | .synthesizeCall env => (synthesize useEleven env).elevenCalls
  | .speakCall env => (speak useEleven env).synth.elevenCalls

/-- Total ElevenLabs HTTP attempts over a sequence of calls. -/
def total_eleven_attempts (useEleven : Bool) (calls : List TTSCall) : Nat :=
  (calls.map (eleven_attempts useEleven)).sum

/-! ### `PiperTTSConnector` (piper_tts.py)

`piper_available` is decided once in `__init__`.  `_synthesize_with_piper`
creates the output `.wav` temporary file before `subprocess.run`; only the
non-zero-exit branch unlinks it on failure, while the `TimeoutExpired` and
generic `except` handlers return `None` without unlinking.  `connect` returns
immediately when piper is unavailable, and otherwise plays then unlinks the
returned file. -/

/-- Outcome of `subprocess.run` inside `_synthesize_with_piper`.  The
temporary output file exists before the call, so `timedOut` and `raised`
(e.g. a missing `piper` executable) both occur with the file on disk. -/
inductive PiperRun where
  | exited (returncode : Nat)
  | timedOut
  | raised

/-- `_synthesize_with_piper` (lines 52-113): whether an output path is
returned, and the number of temporary files left on disk when the result is
returned to the caller (the returned output file itself included). -/
def synthesize_with_piper : PiperRun → Option Unit × Nat
  | .exited rc => if rc = 0 then (some (), 1) else (none, 0)
  | .timedOut => (none, 1)
  | .raised => (none, 1)

/-- Observable effects of one `connect` call. -/
structure ConnectTrace where
  synthCalls : Nat
  playCalls : Nat
  tempsLeft : Nat
  mockLogged : Bool

/-- `connect` (lines 150-182): when `piper_available` is false, log the mock
message and return; otherwise synthesize, and on success play the file and
unlink it (the unlink is wrapped in `try/except OSError`). -/
def connect (piperAvailable : Bool) (run : PiperRun) : ConnectTrace :=
  if piperAvailable = false then
    { synthCalls := 0, playCalls := 0, tempsLeft := 0, mockLogged := true }
  else
    let synth := synthesize_with_piper run
    match synth.1 with
    | some _ =>
        { synthCalls := 1, playCalls := 1, tempsLeft := synth.2 - 1,
          mockLogged := false }
    | none =>
        { synthCalls := 1, playCalls := 0, tempsLeft := synth.2,
          mockLogged := false }

/-! ### Helper lemmas -/

theorem agg_apply_len (s : ASRBuffer) (op : AggOp) (h : s.messages.length ≤ 1) :
    (agg_apply s op).messages.length ≤ 1 := by
  cases op with
  | append raw =>
      cases raw with
      | none =>
          simp only [agg_apply, raw_to_text]
          split <;> simpa using h
      | some pending =>
          simp only [agg_apply, raw_to_text]
          split
          · simp
          · simp only [List.length_append, List.length_dropLast, List.length_cons,
              List.length_nil]
            omega
  | readClear =>
      simp only [agg_apply, formatted_latest_buffer]
      cases hms : s.messages with
      | nil => simp [hms]
      | cons a l => simp

theorem agg_run_len (ops : List AggOp) :
    ∀ s : ASRBuffer, s.messages.length ≤ 1 →
      (agg_run s ops).messages.length ≤ 1 := by
  induction ops with
  | nil => intro s h; exact h
  | cons op ops ih =>
      intro s h
      exact ih _ (agg_apply_len s op h)

theorem loop_cycle_sleep (threshold : ℚ) (o : CycleOracle) (queue : List String) :
    (loop_cycle threshold o queue).2 = if o.raised then (1 : ℚ) else 1/10 := by
  rcases o with ⟨rec, tr, raised⟩
  cases raised with
  | true => rfl
  | false =>
      simp only [loop_cycle, Bool.false_eq_true, if_false]
      cases rec with
      | none => rfl
      | some audio =>
          by_cases h1 : audio.length = 0
          · simp [h1]
          · by_cases h2 : has_speech_bool audio threshold
            · cases h3 : loop_enqueue tr <;> simp [h1, h2, h3]
            · simp [h1, h2]

theorem speak_synth_eq (useEleven : Bool) (env : SpeakEnv) :
    (speak useEleven env).synth = synthesize useEleven env := by
  unfold speak
  cases h : (synthesize useEleven env).result with
  | none => simp [h]
  | some bytes =>
      simp only [h]
      split <;> rfl

theorem eleven_attempts_zero (call : TTSCall) : eleven_attempts false call = 0 := by
  cases call with
  | synthesizeCall env => simp [eleven_attempts, synthesize]
  | speakCall env => simp [eleven_attempts, speak_synth_eq, synthesize]

/-! ### Claim theorems -/

/-- C5: starting from the empty aggregator, `raw_to_text "a"` then
`raw_to_text "b"` leaves the buffer holding `"a b"`; `formatted_latest_buffer`
then returns the tagged block (header naming the Voice input, start marker,
the text, end marker) containing `"a b"` and empties the buffer, and an
immediately following second read returns `none`. -/
theorem aggregator_append_append_read_clear :
    (agg_run initBuffer [.append (some "a"), .append (some "b")]).messages
      = ["a b"] ∧
    (formatted_latest_buffer
      (agg_run initBuffer [.append (some "a"), .append (some "b")])).1
      = some "\nINPUT: Voice\n// START\na b\n// END\n" ∧
    (formatted_latest_buffer
      (agg_run initBuffer [.append (some "a"), .append (some "b")])).2.messages
      = [] ∧
    (formatted_latest_buffer (formatted_latest_buffer
      (agg_run initBuffer [.append (some "a"), .append (some "b")])).2).1
      = none := by
  decide

/-- C9: the `messages` list holds at most one in-progress string after every
operation: any sequence of `raw_to_text` and `formatted_latest_buffer` calls
starting from the empty buffer leaves `messages` with length 0 or 1. -/
theorem messages_buffer_at_most_one (ops : List AggOp) :
    (agg_run initBuffer ops).messages.length ≤ 1 :=
  agg_run_len ops initBuffer (Nat.zero_le 1)

/-- C6: an exception in a cycle never terminates the capture loop: every
scheduled cycle produces exactly one entry in the sleep trace (so the next
cycle always runs), with a 1-second delay after a cycle whose body raised and
a 0.1-second yield after a cycle that completed without exception. -/
theorem capture_loop_survives_exceptions (threshold : ℚ) (queue : List String)
    (os : List CycleOracle) :
    (loop_run threshold queue os).2.length = os.length ∧
    (loop_run threshold queue os).2
      = os.map (fun o => if o.raised then (1 : ℚ) else 1/10) := by
  have main : ∀ q : List String, (loop_run threshold q os).2
      = os.map (fun o => if o.raised then (1 : ℚ) else 1/10) := by
    induction os with
    | nil => intro q; rfl
    | cons o os ih =>
        intro q
        simp [loop_run, loop_cycle_sleep, ih]
  exact ⟨by rw [main queue]; simp, main queue⟩

/-- C7: whenever the faster-whisper path produces a transcript, that
transcript is the engine's segment texts joined with single spaces in emission
order and then stripped of surrounding whitespace. -/
theorem faster_whisper_joins_segments (segments : List String) (t : String)
    (h : transcribe_with_faster_whisper segments = some t) :
    t = strip (String.intercalate " " segments) := by
  simp only [transcribe_with_faster_whisper] at h
  split at h
  · exact absurd h (by simp)
  · exact (Option.some.inj h).symm

/-- C7 witness: segments `["hel", "lo"]` yield the transcript `"hel lo"`. -/
theorem faster_whisper_joins_segments_witness :
    transcribe_with_faster_whisper ["hel", "lo"] = some "hel lo" ∧
    "hel lo" = strip (String.intercalate " " ["hel", "lo"]) :=
  ⟨by decide, faster_whisper_joins_segments ["hel", "lo"] "hel lo" (by decide)⟩

/-- C8: a transcription result that is `None`, empty, or whitespace-only leads
to no enqueued message, and any message that is enqueued is the transcript
with surrounding whitespace stripped. -/
theorem empty_transcripts_not_enqueued (text : Option String) :
    ((text = none ∨ text = some "" ∨ ∃ t, text = some t ∧ strip t = "") →
      loop_enqueue text = none) ∧
    ∀ m, loop_enqueue text = some m → ∃ t, text = some t ∧ m = strip t := by
  constructor
  · intro h
    rcases h with h | h | ⟨t, ht, hstrip⟩
    · simp [h, loop_enqueue]
    · simp [h, loop_enqueue]
    · subst ht
      have hlen : (strip t).length = 0 := by rw [hstrip]; rfl
      simp [loop_enqueue, hlen]
  · intro m hm
    cases text with
    | none => exact absurd hm (by simp [loop_enqueue])
    | some t =>
        refine ⟨t, rfl, ?_⟩
        simp only [loop_enqueue] at hm
        split at hm
        · exact (Option.some.inj hm).symm
        · exact absurd hm (by simp)

/-- C8 witness: a whitespace-only transcript is dropped; `" hi "` is enqueued
as `"hi"`. -/
theorem empty_transcripts_not_enqueued_witness :
    loop_enqueue (some "   ") = none ∧ loop_enqueue (some " hi ") = some "hi" :=
  ⟨(empty_transcripts_not_enqueued (some "   ")).1
      (Or.inr (Or.inr ⟨"   ", rfl, by decide⟩)),
   by decide⟩

/-- C2 counterexample: the single-sample chunk `[1/100]` has RMS exactly equal
to the default silence threshold `0.01`, yet `_has_speech` returns false there
(the code compares with strict `>`), where the claim requires true. -/
theorem has_speech_false_at_exact_threshold :
    Real.sqrt ((mean_square [(1:ℚ)/100] : ℚ) : ℝ) = (((1:ℚ)/100 : ℚ) : ℝ) ∧
    ¬ has_speech [(1:ℚ)/100] ((1:ℚ)/100) := by
  have h1 : mean_square [(1:ℚ)/100] = ((1:ℚ)/100) ^ 2 := by
    norm_num [mean_square]
  constructor
  · rw [h1]
    push_cast
    exact Real.sqrt_sq (by norm_num)
  · rw [has_speech_iff_sq _ _ (by norm_num), h1]
    exact lt_irrefl _

/-- C2 (amended): for a nonnegative silence threshold, `_has_speech` returns
true iff the chunk's RMS strictly exceeds the threshold (equivalently, the
squared threshold is strictly below the mean square); a chunk whose RMS equals
the threshold exactly yields false. -/
theorem has_speech_iff_strictly_above (xs : List ℚ) (threshold : ℚ)
    (h : 0 ≤ threshold) :
    (has_speech xs threshold ↔ threshold ^ 2 < mean_square xs) ∧
    (Real.sqrt ((mean_square xs : ℚ) : ℝ) = ((threshold : ℚ) : ℝ) →
      ¬ has_speech xs threshold) := by
  refine ⟨has_speech_iff_sq xs threshold h, ?_⟩
  intro heq
  unfold has_speech
  rw [heq]
  exact lt_irrefl _

/-- C2 witness: at the default threshold `0.01`, the chunk `[1/50]` (RMS
`0.02`) passes the gate. -/
theorem has_speech_iff_strictly_above_witness :
    (0 : ℚ) ≤ 1/100 ∧ has_speech [(1:ℚ)/50] ((1:ℚ)/100) :=
  ⟨by norm_num,
   ((has_speech_iff_strictly_above [(1:ℚ)/50] ((1:ℚ)/100) (by norm_num)).1).mpr
     (by norm_num [mean_square])⟩

/-- C3: with a credential configured and the ElevenLabs request answered with
a non-200 status, `speak` invokes the Piper synthesis path exactly once (and
the HTTP provider exactly once), and its boolean result is determined by the
Piper outcome: true iff Piper produced non-empty audio, in which case playback
is invoked. -/
theorem speak_falls_back_to_piper_on_http_error (apiKey : Option String)
    (status : Nat) (body : List Nat) (proc : PiperProc)
    (hk : pyTruthy apiKey = true) (hs : status ≠ 200) :
    let tr := speak (init_use_elevenlabs apiKey)
        { http := .response status body, piperProc := proc }
    tr.synth.piperCalls = 1 ∧ tr.synth.elevenCalls = 1 ∧
    (tr.ok = true ↔ ∃ wav, (synthesize_piper proc).1 = some wav ∧ wav ≠ []) ∧
    (tr.ok = true → tr.playCalls = 1) := by
  intro tr
  have huse : init_use_elevenlabs apiKey = true := hk
  rcases proc with ⟨rc, wav⟩ | _
  · by_cases hrc : rc = 0
    · by_cases hw : wav = []
      · simp [tr, speak, synthesize, synthesize_elevenlabs, synthesize_piper,
          huse, hs, hrc, hw]
      · simp [tr, speak, synthesize, synthesize_elevenlabs, synthesize_piper,
          huse, hs, hrc, hw]
    · simp [tr, speak, synthesize, synthesize_elevenlabs, synthesize_piper,
        huse, hs, hrc]
  · simp [tr, speak, synthesize, synthesize_elevenlabs, synthesize_piper,
      huse, hs]

/-- C3 witness: credential `"key"`, HTTP 500, and a Piper run that exits 0
with one byte of audio: Piper is called once and `speak` returns true. -/
theorem speak_falls_back_to_piper_witness :
    pyTruthy (some "key") = true ∧ (500 : Nat) ≠ 200 ∧
    (let tr := speak (init_use_elevenlabs (some "key"))
        { http := .response 500 [], piperProc := .exited 0 [7] }
     tr.synth.piperCalls = 1 ∧ tr.synth.elevenCalls = 1 ∧
     (tr.ok = true ↔
        ∃ wav, (synthesize_piper (.exited 0 [7])).1 = some wav ∧ wav ≠ []) ∧
     (tr.ok = true → tr.playCalls = 1)) :=
  ⟨by decide, by decide,
   speak_falls_back_to_piper_on_http_error (some "key") 500 [] (.exited 0 [7])
     (by decide) (by decide)⟩

/-- C4: when no (non-empty) ElevenLabs credential is present at construction,
no call in any subsequent sequence of `synthesize` and `speak` calls ever
attempts the ElevenLabs HTTP provider. -/
theorem no_credential_never_attempts_elevenlabs (apiKey : Option String)
    (calls : List TTSCall) (h : pyTruthy apiKey = false) :
    total_eleven_attempts (init_use_elevenlabs apiKey) calls = 0 := by
  have huse : init_use_elevenlabs apiKey = false := h
  rw [huse]
  unfold total_eleven_attempts
  induction calls with
  | nil => rfl
  | cons c cs ih => simp [List.map_cons, List.sum_cons, ih, eleven_attempts_zero]

/-- C4 witness: with the credential absent, a `speak` call and a `synthesize`
call make zero ElevenLabs attempts. -/
theorem no_credential_never_attempts_witness :
    pyTruthy none = false ∧
    total_eleven_attempts (init_use_elevenlabs none)
      [.speakCall { http := .raised, piperProc := .exited 0 [7] },
       .synthesizeCall { http := .response 200 [1], piperProc := .raised }] = 0 :=
  ⟨rfl,
   no_credential_never_attempts_elevenlabs none
     [.speakCall { http := .raised, piperProc := .exited 0 [7] },
      .synthesizeCall { http := .response 200 [1], piperProc := .raised }] rfl⟩

/-- C1: the mandatory-cleanup claim fails on the code: when the piper
subprocess raises inside `_synthesize_piper` (e.g. `FileNotFoundError` for a
missing executable), both the `.txt` and `.wav` temporary files are left on
disk; when `subprocess.run` inside `_synthesize_with_piper` times out or
raises, the `.wav` temporary file is left on disk, including after the
enclosing `connect` call returns. -/
theorem temp_cleanup_violated_on_exception_paths :
    (synthesize_piper .raised).2 = 2 ∧
    (synthesize_with_piper .timedOut).2 = 1 ∧
    (synthesize_with_piper .raised).2 = 1 ∧
    (connect true .timedOut).tempsLeft = 1 ∧
    (connect true .raised).tempsLeft = 1 ∧
    (synthesize_with_piper (.exited 1)).2 = 0 ∧
    (connect true (.exited 0)).tempsLeft = 0 := by
  refine ⟨rfl, rfl, rfl, rfl, rfl, rfl, rfl⟩

/-- C10: when the availability probe failed at construction
(`piper_available = false`), every `connect` call returns after logging only:
no synthesis subprocess, no playback attempt, and no temporary file. -/
theorem connect_noop_when_piper_unavailable (run : PiperRun) :
    connect false run =
      { synthCalls := 0, playCalls := 0, tempsLeft := 0, mockLogged := true } :=
  rfl

end RoboAI
